import Mathlib

/-
Shallow embedding of the two web-client scripts of the mscf16 repository:
  static/js/mscf16_app.js  (pulse-shaping / discriminator client, "MSCF-16")
  static/js/app.js         (high-voltage client, "MHV-4")
Each Lean definition mirrors one JavaScript function or handler; the
comments name the source function it embeds.
-/

/-- A JavaScript value as it appears in the command parameter objects the
clients build: a number (integers only ever arise here), NaN (from a failed
parseInt), a boolean, null, or a string. -/
inductive JSVal where
  | num (n : Int)
  | nan
  | bool (b : Bool)
  | null
  | str (s : String)
deriving DecidableEq, Repr

/-- Numeric value of a decimal digit list (most significant first). -/
def natOfDigits (ds : List Char) : Nat :=
  ds.foldl (fun a c => a * 10 + (c.toNat - 48)) 0

/-- Helper of jsParseInt: parse the leading decimal digit run; NaN when
there is none (JavaScript parseInt semantics, radix 10). -/
def parseIntDigits (sign : Int) (cs : List Char) : JSVal :=
  let ds := cs.takeWhile Char.isDigit
  if ds = [] then JSVal.nan else JSVal.num (sign * (natOfDigits ds : Int))

/-- Model of JavaScript parseInt(s) with the default radix 10: skip leading
whitespace, read an optional sign, then the longest decimal digit run;
NaN when no digit follows. -/
def jsParseInt (s : String) : JSVal :=
  match s.toList.dropWhile Char.isWhitespace with
  | '-' :: rest => parseIntDigits (-1) rest
  | '+' :: rest => parseIntDigits 1 rest
  | rest => parseIntDigits 1 rest

/-- A command POSTed by sendCommand(deviceId, command, params) in either
client: the device id, the command name, and the params object as an
ordered key/value list. -/
structure SentCommand where
  deviceId : String
  command : String
  params : List (String × JSVal)
deriving DecidableEq, Repr

/-- The threshold inputs of one MSCF-16 module panel: sixteen individual
inputs (ids thresh-dev-1 .. thresh-dev-16) and the common input
(id thresh-common-dev), each holding its value string. -/
structure ThresholdInputs where
  individual : Nat → String
  common : String

/-- mscf16_app.js setThreshold(deviceId, channel): reads the common input
when channel is 17, otherwise channel's individual input, and sends
set_threshold with the channel unchanged and the parsed integer value. -/
def setThreshold (deviceId : String) (ui : ThresholdInputs) (channel : Nat) : SentCommand :=
  let inputVal := if channel = 17 then ui.common else ui.individual channel
  { deviceId := deviceId
    command := "set_threshold"
    params := [("channel", JSVal.num channel), ("value", jsParseInt inputVal)] }

/-- Claim C1: setThreshold(deviceId, channel) sends a set_threshold command
whose value is parsed from the common input when channel is the sentinel 17
and from that channel's individual input when channel is 1-16; the channel
field of the sent command equals the channel argument unchanged. -/
theorem c1_setThreshold_routes_input (deviceId : String) (ui : ThresholdInputs)
    (channel : Nat) (h1 : 1 ≤ channel) (h2 : channel ≤ 16) :
    (setThreshold deviceId ui channel).command = "set_threshold" ∧
    (setThreshold deviceId ui channel).params =
      [("channel", JSVal.num channel), ("value", jsParseInt (ui.individual channel))] ∧
    (setThreshold deviceId ui 17).command = "set_threshold" ∧
    (setThreshold deviceId ui 17).params =
      [("channel", JSVal.num 17), ("value", jsParseInt ui.common)] := by
  have hne : channel ≠ 17 := by omega
  refine ⟨rfl, ?_, rfl, ?_⟩ <;> simp [setThreshold, hne]

/-- Witness for C1 at device "COM3", channel 5, all-"100" individual inputs
and common input "128". -/
theorem c1_setThreshold_routes_input_witness :
    (setThreshold "COM3" ⟨fun _ => "100", "128"⟩ 5).params =
      [("channel", JSVal.num 5), ("value", jsParseInt "100")] ∧
    (setThreshold "COM3" ⟨fun _ => "100", "128"⟩ 17).params =
      [("channel", JSVal.num 17), ("value", jsParseInt "128")] :=
  ⟨(c1_setThreshold_routes_input "COM3" ⟨fun _ => "100", "128"⟩ 5 (by decide) (by decide)).2.1,
   (c1_setThreshold_routes_input "COM3" ⟨fun _ => "100", "128"⟩ 5 (by decide) (by decide)).2.2.2⟩

/-- The four mode checkboxes of one MSCF-16 module panel
(mscf16_app.js createModulePanel, ids single-mode-dev, ecl-delay-dev,
blr-mode-dev, rc-mode-dev). -/
inductive ModeCheckbox where
  | singleMode
  | eclDelay
  | blrMode
  | rcMode
deriving DecidableEq, Repr

/-- The data-mode attribute of each mode checkbox, as written in
createModulePanel of mscf16_app.js. -/
def dataMode : ModeCheckbox → String
  | .singleMode => "single_mode"
  | .eclDelay => "ecl_delay"
  | .blrMode => "blr_mode"
  | .rcMode => "rc_mode"

/-- mscf16_app.js initializeControls: the change listener of a mode
checkbox sends the command "set_" ++ data-mode with the single parameter
enable equal to the checkbox state. -/
def modeChangeCommand (deviceId : String) (m : ModeCheckbox) (checked : Bool) : SentCommand :=
  { deviceId := deviceId
    command := "set_" ++ dataMode m
    params := [("enable", JSVal.bool checked)] }

/-- Counterexample to claim C3 as stated: toggling the single channel mode
checkbox sends the command "set_single_mode", not the spec table's
operation name "set_single_channel_mode". -/
theorem c3_single_mode_counterexample :
    ¬ (modeChangeCommand "COM3" ModeCheckbox.singleMode true).command
        = "set_single_channel_mode" := by
  decide

/-- Claim C3 (amended): toggling a mode checkbox sends set_single_mode,
set_ecl_delay, set_blr_mode, set_rc_mode respectively (the single channel
mode checkbox sends "set_single_mode", diverging from the spec table's
"set_single_channel_mode"), each with a single boolean parameter enable
equal to the checkbox state. -/
theorem c3_mode_checkbox_commands (deviceId : String) (m : ModeCheckbox) (checked : Bool) :
    (modeChangeCommand deviceId m checked).command =
      (match m with
       | .singleMode => "set_single_mode"
       | .eclDelay => "set_ecl_delay"
       | .blrMode => "set_blr_mode"
       | .rcMode => "set_rc_mode") ∧
    (modeChangeCommand deviceId m checked).params = [("enable", JSVal.bool checked)] := by
  cases m <;> exact ⟨rfl, rfl⟩

/-- mscf16_app.js setAutomaticPZ(deviceId): parses the auto-pz select value
and sends set_automatic_pz with channel null when the parsed value is 0
(the "All" option), the parsed channel number otherwise. -/
def setAutomaticPZ (deviceId : String) (selectValue : String) : SentCommand :=
  let channel := jsParseInt selectValue
  { deviceId := deviceId
    command := "set_automatic_pz"
    params := [("channel", if channel = JSVal.num 0 then JSVal.null else channel)] }

/-- Claim C6: for every select option n (value 0 = "All" through 16),
setAutomaticPZ sends set_automatic_pz whose channel parameter is null
exactly when n = 0 and equals the selected channel 1-16 otherwise. -/
theorem c6_setAutomaticPZ_channel (deviceId : String) (n : Nat) (h : n ≤ 16) :
    (setAutomaticPZ deviceId (toString n)).command = "set_automatic_pz" ∧
    (setAutomaticPZ deviceId (toString n)).params =
      [("channel", if n = 0 then JSVal.null else JSVal.num n)] := by
  refine ⟨rfl, ?_⟩
  interval_cases n <;> rfl

/-- Witness for C6 at options 0 (All) and 3. -/
theorem c6_setAutomaticPZ_channel_witness :
    (setAutomaticPZ "COM3" (toString 0)).params =
      [("channel", if 0 = 0 then JSVal.null else JSVal.num 0)] ∧
    (setAutomaticPZ "COM3" (toString 3)).params =
      [("channel", if 3 = 0 then JSVal.null else JSVal.num 3)] :=
  ⟨(c6_setAutomaticPZ_channel "COM3" 0 (by decide)).2,
   (c6_setAutomaticPZ_channel "COM3" 3 (by decide)).2⟩

/-- JavaScript subtraction of one on a parseInt result: NaN minus one stays
NaN, a number decrements. -/
def jsSubOne : JSVal → JSVal
  | JSVal.num n => JSVal.num (n - 1)
  | v => v

/-- app.js initializeChannelControls, NTC selector change listener: sends
set_temperature_compensation with the channel and an ntc_channel that is
null when the select value is the string "0" (Off), and the parsed value
minus one otherwise. -/
def ntcChangeCommand (deviceId : String) (ch : Nat) (selectValue : String) : SentCommand :=
  let ntcChannel := if selectValue = "0" then JSVal.null else jsSubOne (jsParseInt selectValue)
  { deviceId := deviceId
    command := "set_temperature_compensation"
    params := [("channel", JSVal.num ch), ("ntc_channel", ntcChannel)] }

/-- Claim C7: for every channel 0-3 and select option v (0 = Off through
4 = NTC3), the NTC change listener sends set_temperature_compensation whose
ntc_channel is null exactly when v = 0 and equals v - 1 (a sensor index
0-3) otherwise. -/
theorem c7_ntc_change_command (deviceId : String) (ch v : Nat)
    (hch : ch < 4) (hv : v ≤ 4) :
    (ntcChangeCommand deviceId ch (toString v)).command = "set_temperature_compensation" ∧
    (ntcChangeCommand deviceId ch (toString v)).params =
      [("channel", JSVal.num ch),
       ("ntc_channel", if v = 0 then JSVal.null else JSVal.num ((v : Int) - 1))] := by
  refine ⟨rfl, ?_⟩
  interval_cases v <;> rfl

/-- Witness for C7 at channel 2, options 0 (Off) and 4 (NTC3). -/
theorem c7_ntc_change_command_witness :
    (ntcChangeCommand "COM3" 2 (toString 0)).params =
      [("channel", JSVal.num 2),
       ("ntc_channel", if 0 = 0 then JSVal.null else JSVal.num ((0 : Int) - 1))] ∧
    (ntcChangeCommand "COM3" 2 (toString 4)).params =
      [("channel", JSVal.num 2),
       ("ntc_channel", if 4 = 0 then JSVal.null else JSVal.num ((4 : Int) - 1))] :=
  ⟨(c7_ntc_change_command "COM3" 2 0 (by decide) (by decide)).2,
   (c7_ntc_change_command "COM3" 2 4 (by decide) (by decide)).2⟩

/-- app.js initializeChannelControls, ramp speed selector change listener:
sends set_ramp_speed with the single parameter ramp_speed_index parsed from
the select value. -/
def rampSpeedChangeCommand (deviceId : String) (selectValue : String) : SentCommand :=
  { deviceId := deviceId
    command := "set_ramp_speed"
    params := [("ramp_speed_index", jsParseInt selectValue)] }

/-- Claim C8: for each of the four fixed options 0-3, the ramp speed change
listener sends set_ramp_speed with exactly one parameter ramp_speed_index
equal to the option value, and no channel parameter. -/
theorem c8_ramp_speed_command (deviceId : String) (n : Nat) (h : n ≤ 3) :
    (rampSpeedChangeCommand deviceId (toString n)).command = "set_ramp_speed" ∧
    (rampSpeedChangeCommand deviceId (toString n)).params =
      [("ramp_speed_index", JSVal.num n)] ∧
    ∀ v : JSVal, ("channel", v) ∉ (rampSpeedChangeCommand deviceId (toString n)).params := by
  refine ⟨rfl, ?_, ?_⟩
  · interval_cases n <;> rfl
  · intro v hv
    simp only [rampSpeedChangeCommand, List.mem_singleton, Prod.mk.injEq] at hv
    exact absurd hv.1 (by decide)

/-- Witness for C8 at option 2. -/
theorem c8_ramp_speed_command_witness :
    (rampSpeedChangeCommand "COM3" (toString 2)).params =
      [("ramp_speed_index", JSVal.num 2)] ∧
    ("channel", JSVal.num 2) ∉ (rampSpeedChangeCommand "COM3" (toString 2)).params :=
  ⟨(c8_ramp_speed_command "COM3" 2 (by decide)).2.1,
   (c8_ramp_speed_command "COM3" 2 (by decide)).2.2 (JSVal.num 2)⟩
/-
Module management state, identical in app.js and mscf16_app.js: the
globals modules (a string-keyed object, insertion ordered) and
currentModuleId, the DOM tab buttons and tab contents, and the functions
addModule / removeModule / the device_disconnected handler.
-/

/-- One entry of the modules object: modules[deviceId] = ⟨deviceId, port⟩
(the DOM node fields are modelled by the tab lists of ClientState). -/
structure ModuleEntry where
  deviceId : String
  port : String
deriving DecidableEq, Repr

/-- Property read modules[d] on the insertion-ordered association list
modelling a JavaScript object. -/
def lookupEntry (l : List (String × ModuleEntry)) (d : String) : Option ModuleEntry :=
  match l with
  | [] => none
  | (k, v) :: rest => if k = d then some v else lookupEntry rest d

/-- Property delete modules[d] on the association list. -/
def eraseKey (l : List (String × ModuleEntry)) (d : String) : List (String × ModuleEntry) :=
  match l with
  | [] => []
  | (k, v) :: rest => if k = d then eraseKey rest d else (k, v) :: eraseKey rest d

/-- Removal of the DOM node belonging to device d from a tab list. -/
def eraseId (l : List String) (d : String) : List String :=
  match l with
  | [] => []
  | x :: rest => if x = d then eraseId rest d else x :: eraseId rest d

/-- The client's module-management state: the modules object as an
insertion-ordered association list, the tab buttons and tab contents
present in the DOM (device ids, creation order), and currentModuleId. -/
structure ClientState where
  modules : List (String × ModuleEntry)
  tabButtons : List String
  tabContents : List String
  currentModuleId : Option String
deriving DecidableEq, Repr

/-- The initial client state: empty modules object, no tabs, and
currentModuleId = null. -/
def ClientState.init : ClientState :=
  { modules := [], tabButtons := [], tabContents := [], currentModuleId := none }

/-- addModule(deviceId, port) of both clients: returns immediately when
modules[deviceId] exists; otherwise appends a tab button and tab content,
stores the module entry, and switches to the new module (switchModule sets
currentModuleId = deviceId). -/
def addModule (st : ClientState) (deviceId port : String) : ClientState :=
  if (lookupEntry st.modules deviceId).isSome then st
  else
    { modules := st.modules ++ [(deviceId, ⟨deviceId, port⟩)]
      tabButtons := st.tabButtons ++ [deviceId]
      tabContents := st.tabContents ++ [deviceId]
      currentModuleId := some deviceId }

/-- removeModule(deviceId) of both clients: when modules[deviceId] exists,
removes its tab button and tab content, deletes the entry, and switches to
the first remaining module id (Object.keys(modules)[0]), or sets
currentModuleId = null when none remains; otherwise does nothing. -/
def removeModule (st : ClientState) (deviceId : String) : ClientState :=
  if (lookupEntry st.modules deviceId).isSome then
    { modules := eraseKey st.modules deviceId
      tabButtons := eraseId st.tabButtons deviceId
      tabContents := eraseId st.tabContents deviceId
      currentModuleId :=
        match eraseKey st.modules deviceId with
        | [] => none
        | (id, _) :: _ => some id }
  else st

/-- The device_disconnected socket handler of both clients: calls
removeModule(data.device_id). -/
def onDeviceDisconnected (st : ClientState) (deviceId : String) : ClientState :=
  removeModule st deviceId

/-- Deleting a key makes its lookup fail. -/
theorem lookupEntry_eraseKey_self (l : List (String × ModuleEntry)) (d : String) :
    lookupEntry (eraseKey l d) d = none := by
  induction l with
  | nil => rfl
  | cons p l ih =>
    match p with
    | (k, v) =>
      by_cases h : k = d
      · simpa [eraseKey, h] using ih
      · simp [eraseKey, lookupEntry, h, ih]

/-- A deleted device id is absent from the erased tab list. -/
theorem not_mem_eraseId_self (l : List String) (d : String) : d ∉ eraseId l d := by
  induction l with
  | nil => simp [eraseId]
  | cons x l ih =>
    by_cases h : x = d
    · simpa [eraseId, h] using ih
    · simp [eraseId, h, ih, Ne.symm h]

/-- Lookup passes through an append when the key is absent on the left. -/
theorem lookupEntry_append_right (l l' : List (String × ModuleEntry)) (d : String)
    (h : lookupEntry l d = none) : lookupEntry (l ++ l') d = lookupEntry l' d := by
  induction l with
  | nil => rfl
  | cons p l ih =>
    match p with
    | (k, v) =>
      by_cases hk : k = d
      · simp [lookupEntry, hk] at h
      · simp only [lookupEntry, if_neg hk] at h
        simpa [lookupEntry, hk] using ih h

/-- A key whose lookup fails is not among the object's keys. -/
theorem not_mem_keys_of_lookupEntry_none (l : List (String × ModuleEntry)) (d : String)
    (h : lookupEntry l d = none) : d ∉ l.map Prod.fst := by
  induction l with
  | nil => simp
  | cons p l ih =>
    match p with
    | (k, v) =>
      by_cases hk : k = d
      · simp [lookupEntry, hk] at h
      · simp only [lookupEntry, if_neg hk] at h
        simp [Ne.symm hk, ih h]

/-- Deleting a key yields a sublist of the original association list. -/
theorem eraseKey_sublist (l : List (String × ModuleEntry)) (d : String) :
    (eraseKey l d).Sublist l := by
  induction l with
  | nil => simp [eraseKey]
  | cons p l ih =>
    match p with
    | (k, v) =>
      by_cases h : k = d
      · simp only [eraseKey, if_pos h]
        exact ih.cons _
      · simp only [eraseKey, if_neg h]
        exact ih.cons₂ _

/-- Claim C2: on a device_disconnected event for an id present in the
modules object, the module is removed entirely — its entry is deleted and
its tab button and tab content are gone — and afterwards currentModuleId is
a remaining module's id when any module remains, and null otherwise. -/
theorem c2_device_disconnected_removes (st : ClientState) (d : String)
    (h : (lookupEntry st.modules d).isSome = true) :
    lookupEntry (onDeviceDisconnected st d).modules d = none ∧
    d ∉ (onDeviceDisconnected st d).tabButtons ∧
    d ∉ (onDeviceDisconnected st d).tabContents ∧
    ((onDeviceDisconnected st d).modules = [] →
      (onDeviceDisconnected st d).currentModuleId = none) ∧
    ((onDeviceDisconnected st d).modules ≠ [] →
      ∃ id, (onDeviceDisconnected st d).currentModuleId = some id ∧
        (lookupEntry (onDeviceDisconnected st d).modules id).isSome = true) := by
  unfold onDeviceDisconnected removeModule
  rw [if_pos h]
  refine ⟨lookupEntry_eraseKey_self st.modules d,
    not_mem_eraseId_self st.tabButtons d,
    not_mem_eraseId_self st.tabContents d, ?_, ?_⟩ <;>
    rcases hfilter : eraseKey st.modules d with - | ⟨⟨id, e⟩, rest⟩ <;>
      simp [hfilter, lookupEntry]

/-- Witness for C2: connect "COM3", then its device_disconnected event
empties the modules object and nulls currentModuleId. -/
theorem c2_device_disconnected_removes_witness :
    lookupEntry
      (onDeviceDisconnected (addModule ClientState.init "COM3" "COM3") "COM3").modules "COM3"
      = none ∧
    (onDeviceDisconnected (addModule ClientState.init "COM3" "COM3") "COM3").currentModuleId
      = none :=
  ⟨(c2_device_disconnected_removes (addModule ClientState.init "COM3" "COM3") "COM3"
      (by decide)).1,
   (c2_device_disconnected_removes (addModule ClientState.init "COM3" "COM3") "COM3"
      (by decide)).2.2.2.1 (by decide)⟩

/-- Claim C9: at most one module entry per device identifier — addModule on
an identifier already present returns immediately and leaves the whole
state (tabs, entries, currentModuleId) unchanged, and the modules object's
keys stay duplicate-free from the empty initial state across addModule and
removeModule. -/
theorem c9_addModule_at_most_one (st : ClientState) (d p e : String) :
    ((lookupEntry st.modules d).isSome = true → addModule st d p = st) ∧
    ((st.modules.map Prod.fst).Nodup →
      ((addModule st d p).modules.map Prod.fst).Nodup ∧
      ((removeModule st e).modules.map Prod.fst).Nodup) ∧
    (ClientState.init.modules.map Prod.fst).Nodup := by
  refine ⟨?_, ?_, by simp [ClientState.init]⟩
  · intro h
    unfold addModule
    rw [if_pos h]
  · intro hn
    constructor
    · by_cases hl : (lookupEntry st.modules d).isSome = true
      · unfold addModule
        rw [if_pos hl]
        exact hn
      · have hnone : lookupEntry st.modules d = none :=
          Option.not_isSome_iff_eq_none.mp (by simpa using hl)
        have hd := not_mem_keys_of_lookupEntry_none st.modules d hnone
        unfold addModule
        rw [if_neg hl]
        simp [List.nodup_append, hn, hd]
    · by_cases hl : (lookupEntry st.modules e).isSome = true
      · unfold removeModule
        rw [if_pos hl]
        exact hn.sublist (List.Sublist.map Prod.fst (eraseKey_sublist st.modules e))
      · unfold removeModule
        rw [if_neg hl]
        exact hn

/-- Witness for C9: a second addModule of "COM3" is the identity, and keys
stay duplicate-free after adding "COM3" and "COM4". -/
theorem c9_addModule_at_most_one_witness :
    addModule (addModule ClientState.init "COM3" "COM3") "COM3" "COM4"
      = addModule ClientState.init "COM3" "COM3" ∧
    (((addModule (addModule ClientState.init "COM3" "COM3") "COM4" "COM4").modules.map
        Prod.fst).Nodup) :=
  ⟨(c9_addModule_at_most_one (addModule ClientState.init "COM3" "COM3") "COM3" "COM4" "x").1
     (by decide),
   ((c9_addModule_at_most_one (addModule ClientState.init "COM3" "COM3") "COM4" "COM4" "x").2.1
     (by decide)).1⟩

/-- The invariant of claim C10: currentModuleId is null exactly when the
modules object is empty, and otherwise names a present module. -/
def CurrentInv (st : ClientState) : Prop :=
  (st.currentModuleId = none ↔ st.modules = []) ∧
  (match st.currentModuleId with
   | none => True
   | some id => (lookupEntry st.modules id).isSome = true)

/-- Claim C10: removeModule on an absent identifier changes nothing, and
across any sequence of addModule and removeModule calls from the initial
state, currentModuleId is null or a key of the modules object, null exactly
when the object is empty. -/
theorem c10_remove_absent_and_invariant (st : ClientState) (d p : String) :
    (lookupEntry st.modules d = none → removeModule st d = st) ∧
    CurrentInv ClientState.init ∧
    (CurrentInv st → CurrentInv (addModule st d p)) ∧
    (CurrentInv st → CurrentInv (removeModule st d)) := by
  refine ⟨?_, ?_, ?_, ?_⟩
  · intro h
    unfold removeModule
    rw [if_neg (by simp [h])]
  · exact ⟨by simp [ClientState.init], trivial⟩
  · intro hinv
    by_cases hl : (lookupEntry st.modules d).isSome = true
    · unfold addModule
      rw [if_pos hl]
      exact hinv
    · have hnone : lookupEntry st.modules d = none :=
        Option.not_isSome_iff_eq_none.mp (by simpa using hl)
      unfold addModule
      rw [if_neg hl]
      refine ⟨by simp, ?_⟩
      simp only [CurrentInv]
      rw [lookupEntry_append_right st.modules _ d hnone]
      simp [lookupEntry]
  · intro hinv
    by_cases hl : (lookupEntry st.modules d).isSome = true
    · unfold removeModule
      rw [if_pos hl]
      rcases h : eraseKey st.modules d with - | ⟨⟨id, e⟩, rest⟩ <;>
        simp [CurrentInv, h, lookupEntry]
    · unfold removeModule
      rw [if_neg hl]
      exact hinv

/-- Witness for C10: removing an absent "COM9" from the initial state is
the identity, and the invariant holds after adding then removing "COM3". -/
theorem c10_remove_absent_and_invariant_witness :
    removeModule ClientState.init "COM9" = ClientState.init ∧
    CurrentInv (removeModule (addModule ClientState.init "COM3" "COM3") "COM3") :=
  ⟨(c10_remove_absent_and_invariant ClientState.init "COM9" "p").1 rfl,
   (c10_remove_absent_and_invariant (addModule ClientState.init "COM3" "COM3") "COM3" "p").2.2.2
     ((c10_remove_absent_and_invariant ClientState.init "COM3" "COM3").2.2.1
       (c10_remove_absent_and_invariant ClientState.init "COM3" "COM3").2.1)⟩

/-
updateInitialValues of mscf16_app.js: a switch on data.type that writes
one UI field of the module panel per case.
-/

/-- An initial_values event as the MSCF-16 client reads it: the type tag,
the optional channel and group fields (absent fields modelled as none),
and the value / hi / lo payloads. -/
structure IVEvent where
  type : String
  channel : Option Int
  group : Option Int
  value : JSVal
  hi : JSVal
  lo : JSVal

/-- The UI fields of one MSCF-16 module panel touched by
updateInitialValues: the version text, the per-channel inputs (ids indexed
1-16), the per-group inputs (ids indexed 1-4), the common inputs, the
selects, and the mode checkboxes, each holding its current value. -/
structure MSCFPanel where
  version : JSVal
  threshold : Int → JSVal
  thresholdCommon : JSVal
  pz : Int → JSVal
  pzCommon : JSVal
  shapingTime : Int → JSVal
  shapingTimeCommon : JSVal
  gain : Int → JSVal
  gainCommon : JSVal
  monitor : JSVal
  multHi : JSVal
  multLo : JSVal
  coincidence : JSVal
  thresholdOffset : JSVal
  shaperOffset : JSVal
  blrThreshold : JSVal
  timingFilter : JSVal
  singleMode : JSVal
  eclDelay : JSVal
  blrMode : JSVal
  rcMode : JSVal

/-- mscf16_app.js updateInitialValues(deviceId, data): dispatches on
data.type and writes the one matching field; per-channel and per-group
cases look the element up by id and skip the write when it does not exist
(channels outside 1-16, groups outside 1-4, or an absent index field). -/
def updateInitialValues (p : MSCFPanel) (e : IVEvent) : MSCFPanel :=
  if e.type = "version" then { p with version := e.value }
  else if e.type = "threshold" then
    match e.channel with
    | some ch =>
        if 1 ≤ ch ∧ ch ≤ 16 then
          { p with threshold := Function.update p.threshold ch e.value }
        else p
    | none => p
  else if e.type = "threshold_common" then { p with thresholdCommon := e.value }
  else if e.type = "pz" then
    match e.channel with
    | some ch =>
        if 1 ≤ ch ∧ ch ≤ 16 then
          { p with pz := Function.update p.pz ch e.value }
        else p
    | none => p
  else if e.type = "pz_common" then { p with pzCommon := e.value }
  else if e.type = "shaping_time" then
    match e.group with
    | some g =>
        if 1 ≤ g ∧ g ≤ 4 then
          { p with shapingTime := Function.update p.shapingTime g e.value }
        else p
    | none => p
  else if e.type = "shaping_time_common" then { p with shapingTimeCommon := e.value }
  else if e.type = "gain" then
    match e.group with
    | some g =>
        if 1 ≤ g ∧ g ≤ 4 then
          { p with gain := Function.update p.gain g e.value }
        else p
    | none => p
  else if e.type = "gain_common" then { p with gainCommon := e.value }
  else if e.type = "monitor" then { p with monitor := e.value }
  else if e.type = "multiplicity" then { p with multHi := e.hi, multLo := e.lo }
  else if e.type = "coincidence_window" then { p with coincidence := e.value }
  else if e.type = "threshold_offset" then { p with thresholdOffset := e.value }
  else if e.type = "shaper_offset" then { p with shaperOffset := e.value }
  else if e.type = "blr_threshold" then { p with blrThreshold := e.value }
  else if e.type = "timing_filter" then { p with timingFilter := e.value }
  else if e.type = "single_mode" then { p with singleMode := e.value }
  else if e.type = "ecl_delay" then { p with eclDelay := e.value }
  else if e.type = "blr_mode" then { p with blrMode := e.value }
  else if e.type = "rc_mode" then { p with rcMode := e.value }
  else p

/-- The type tags handled by mscf16_app.js updateInitialValues. -/
def handledTypes : List String :=
  ["version", "threshold", "threshold_common", "pz", "pz_common",
   "shaping_time", "shaping_time_common", "gain", "gain_common", "monitor",
   "multiplicity", "coincidence_window", "threshold_offset", "shaper_offset",
   "blr_threshold", "timing_filter", "single_mode", "ecl_delay", "blr_mode", "rc_mode"]

/-- Claim C4: an initial_values event is dispatched solely on its type tag
and modifies exactly the one matching field — threshold with a channel
updates only that channel's input, threshold_common only the common input,
likewise for pz / pz_common, shaping_time / shaping_time_common,
gain / gain_common — and an event whose type matches no case changes
nothing. -/
theorem c4_initial_values_dispatch (p : MSCFPanel) (e : IVEvent) (ch g : Int) :
    (e.type = "threshold" → e.channel = some ch → 1 ≤ ch → ch ≤ 16 →
      updateInitialValues p e =
        { p with threshold := Function.update p.threshold ch e.value }) ∧
    (e.type = "threshold_common" →
      updateInitialValues p e = { p with thresholdCommon := e.value }) ∧
    (e.type = "pz" → e.channel = some ch → 1 ≤ ch → ch ≤ 16 →
      updateInitialValues p e = { p with pz := Function.update p.pz ch e.value }) ∧
    (e.type = "pz_common" → updateInitialValues p e = { p with pzCommon := e.value }) ∧
    (e.type = "shaping_time" → e.group = some g → 1 ≤ g → g ≤ 4 →
      updateInitialValues p e =
        { p with shapingTime := Function.update p.shapingTime g e.value }) ∧
    (e.type = "shaping_time_common" →
      updateInitialValues p e = { p with shapingTimeCommon := e.value }) ∧
    (e.type = "gain" → e.group = some g → 1 ≤ g → g ≤ 4 →
      updateInitialValues p e = { p with gain := Function.update p.gain g e.value }) ∧
    (e.type = "gain_common" → updateInitialValues p e = { p with gainCommon := e.value }) ∧
    (e.type ∉ handledTypes → updateInitialValues p e = p) := by
  obtain ⟨ty, ech, eg, v, hi, lo⟩ := e
  refine ⟨?_, ?_, ?_, ?_, ?_, ?_, ?_, ?_, ?_⟩
  · rintro rfl rfl h1 h2
    simp [updateInitialValues, h1, h2]
  · rintro rfl
    simp [updateInitialValues]
  · rintro rfl rfl h1 h2
    simp [updateInitialValues, h1, h2]
  · rintro rfl
    simp [updateInitialValues]
  · rintro rfl rfl h1 h2
    simp [updateInitialValues, h1, h2]
  · rintro rfl
    simp [updateInitialValues]
  · rintro rfl rfl h1 h2
    simp [updateInitialValues, h1, h2]
  · rintro rfl
    simp [updateInitialValues]
  · intro h
    simp only [handledTypes, List.mem_cons, List.not_mem_nil, or_false, not_or] at h
    obtain ⟨h1, h2, h3, h4, h5, h6, h7, h8, h9, h10,
      h11, h12, h13, h14, h15, h16, h17, h18, h19, h20⟩ := h
    simp [updateInitialValues, h1, h2, h3, h4, h5, h6, h7, h8, h9, h10,
      h11, h12, h13, h14, h15, h16, h17, h18, h19, h20]

/-- A concrete MSCF-16 panel holding the default values rendered by
createModulePanel. -/
def samplePanel : MSCFPanel :=
  { version := JSVal.str "5.0"
    threshold := fun _ => JSVal.num 128
    thresholdCommon := JSVal.num 128
    pz := fun _ => JSVal.num 100
    pzCommon := JSVal.num 100
    shapingTime := fun _ => JSVal.num 8
    shapingTimeCommon := JSVal.num 8
    gain := fun _ => JSVal.num 8
    gainCommon := JSVal.num 8
    monitor := JSVal.num 1
    multHi := JSVal.num 5
    multLo := JSVal.num 2
    coincidence := JSVal.num 128
    thresholdOffset := JSVal.num 100
    shaperOffset := JSVal.num 100
    blrThreshold := JSVal.num 128
    timingFilter := JSVal.num 0
    singleMode := JSVal.bool false
    eclDelay := JSVal.bool false
    blrMode := JSVal.bool true
    rcMode := JSVal.bool false }

/-- Witness for C4: a threshold event for channel 3 updates only that
input, and an unknown type tag changes nothing. -/
theorem c4_initial_values_dispatch_witness :
    updateInitialValues samplePanel
        ⟨"threshold", some 3, none, JSVal.num 42, JSVal.null, JSVal.null⟩ =
      { samplePanel with
          threshold := Function.update samplePanel.threshold 3 (JSVal.num 42) } ∧
    updateInitialValues samplePanel
        ⟨"unknown_tag", none, none, JSVal.num 1, JSVal.null, JSVal.null⟩ = samplePanel :=
  ⟨(c4_initial_values_dispatch samplePanel
      ⟨"threshold", some 3, none, JSVal.num 42, JSVal.null, JSVal.null⟩ 3 0).1
      rfl rfl (by decide) (by decide),
   (c4_initial_values_dispatch samplePanel
      ⟨"unknown_tag", none, none, JSVal.num 1, JSVal.null, JSVal.null⟩ 3 0).2.2.2.2.2.2.2.2
      (by decide)⟩

/-
updateModuleReadings of app.js: the readings_update handler of the
high-voltage client. The JavaScript values are floating-point numbers and
toFixed(1) / toFixed(3) format them; the value type and the two formatters
are kept abstract here (parameters of the embedding), which preserves
exactly which display each formatted value is written to.
-/

/-- The voltage and current LCD displays of one MHV-4 module panel
(element ids voltage-dev-ch and current-dev-ch), channel-indexed. -/
structure HVDisplays where
  voltageDisp : Nat → String
  currentDisp : Nat → String

/-- The readings object of a readings_update event: the optional fields
voltage_<ch> and current_<ch>, absent fields modelled as none. -/
structure ReadingsData (α : Type) where
  voltage : Nat → Option α
  current : Nat → Option α

/-- One iteration of the loop of app.js updateModuleReadings: when
voltage_<ch> is present write its formatted value to the voltage display,
when current_<ch> is present write its formatted value to the current
display, touching nothing else. -/
def updateChannelReading {α : Type} (fix1 fix3 : α → String) (r : ReadingsData α)
    (d : HVDisplays) (ch : Nat) : HVDisplays :=
  let d1 :=
    match r.voltage ch with
    | some v => { d with voltageDisp := Function.update d.voltageDisp ch (fix1 v) }
    | none => d
  match r.current ch with
  | some c => { d1 with currentDisp := Function.update d1.currentDisp ch (fix3 c) }
  | none => d1

/-- app.js updateModuleReadings(deviceId, readings): the for loop over
channels 0, 1, 2, 3. -/
def updateModuleReadings {α : Type} (fix1 fix3 : α → String) (d : HVDisplays)
    (r : ReadingsData α) : HVDisplays :=
  [0, 1, 2, 3].foldl (updateChannelReading fix1 fix3 r) d

/-- The loop iteration writes the channel's own voltage display. -/
theorem uCR_voltageDisp_eq {α : Type} {fix1 fix3 : α → String} {r : ReadingsData α}
    {d : HVDisplays} {c : Nat} :
    (updateChannelReading fix1 fix3 r d c).voltageDisp c =
      match r.voltage c with
      | some v => fix1 v
      | none => d.voltageDisp c := by
  unfold updateChannelReading
  cases hv : r.voltage c <;> cases hc : r.current c <;> simp [hv, hc]

/-- The loop iteration leaves other channels' voltage displays alone. -/
theorem uCR_voltageDisp_ne {α : Type} {fix1 fix3 : α → String} {r : ReadingsData α}
    {d : HVDisplays} {c x : Nat} (h : x ≠ c) :
    (updateChannelReading fix1 fix3 r d c).voltageDisp x = d.voltageDisp x := by
  unfold updateChannelReading
  cases hv : r.voltage c <;> cases hc : r.current c <;> simp [hv, hc, Function.update, h]

/-- The loop iteration writes the channel's own current display. -/
theorem uCR_currentDisp_eq {α : Type} {fix1 fix3 : α → String} {r : ReadingsData α}
    {d : HVDisplays} {c : Nat} :
    (updateChannelReading fix1 fix3 r d c).currentDisp c =
      match r.current c with
      | some w => fix3 w
      | none => d.currentDisp c := by
  unfold updateChannelReading
  cases hv : r.voltage c <;> cases hc : r.current c <;> simp [hv, hc]

/-- The loop iteration leaves other channels' current displays alone. -/
theorem uCR_currentDisp_ne {α : Type} {fix1 fix3 : α → String} {r : ReadingsData α}
    {d : HVDisplays} {c x : Nat} (h : x ≠ c) :
    (updateChannelReading fix1 fix3 r d c).currentDisp x = d.currentDisp x := by
  unfold updateChannelReading
  cases hv : r.voltage c <;> cases hc : r.current c <;> simp [hv, hc, Function.update, h]

/-- Claim C5: for every channel 0-3, a present voltage_<ch> sets that
channel's voltage display to the one-decimal formatted value and a present
current_<ch> sets the current display to the three-decimal formatted value;
an absent field leaves the display unchanged, and no display outside
channels 0-3 is ever updated. -/
theorem c5_readings_update (α : Type) (fix1 fix3 : α → String) (d : HVDisplays)
    (r : ReadingsData α) (ch : Nat) (v w : α) :
    (ch < 4 → r.voltage ch = some v →
      (updateModuleReadings fix1 fix3 d r).voltageDisp ch = fix1 v) ∧
    (ch < 4 → r.voltage ch = none →
      (updateModuleReadings fix1 fix3 d r).voltageDisp ch = d.voltageDisp ch) ∧
    (ch < 4 → r.current ch = some w →
      (updateModuleReadings fix1 fix3 d r).currentDisp ch = fix3 w) ∧
    (ch < 4 → r.current ch = none →
      (updateModuleReadings fix1 fix3 d r).currentDisp ch = d.currentDisp ch) ∧
    (4 ≤ ch →
      (updateModuleReadings fix1 fix3 d r).voltageDisp ch = d.voltageDisp ch ∧
      (updateModuleReadings fix1 fix3 d r).currentDisp ch = d.currentDisp ch) := by
  refine ⟨?_, ?_, ?_, ?_, ?_⟩
  · intro h hv
    interval_cases ch <;>
      simp [updateModuleReadings, uCR_voltageDisp_ne, uCR_voltageDisp_eq, hv]
  · intro h hv
    interval_cases ch <;>
      simp [updateModuleReadings, uCR_voltageDisp_ne, uCR_voltageDisp_eq, hv]
  · intro h hc
    interval_cases ch <;>
      simp [updateModuleReadings, uCR_currentDisp_ne, uCR_currentDisp_eq, hc]
  · intro h hc
    interval_cases ch <;>
      simp [updateModuleReadings, uCR_currentDisp_ne, uCR_currentDisp_eq, hc]
  · intro h
    have h0 : ch ≠ 0 := by omega
    have h1 : ch ≠ 1 := by omega
    have h2 : ch ≠ 2 := by omega
    have h3 : ch ≠ 3 := by omega
    constructor <;>
      simp [updateModuleReadings, uCR_voltageDisp_ne, uCR_currentDisp_ne, h0, h1, h2, h3]

/-- Concrete displays for the C5 witness, holding the initial LCD texts. -/
def sampleDisplays : HVDisplays :=
  { voltageDisp := fun _ => "000.0", currentDisp := fun _ => "0.000" }

/-- Concrete readings for the C5 witness: only voltage_2 present. -/
def sampleReadings : ReadingsData String :=
  { voltage := fun ch => if ch = 2 then some "123.4" else none
    current := fun _ => none }

/-- Witness for C5 at channel 2 of the sample readings: the voltage display
is written and the current display is untouched. -/
theorem c5_readings_update_witness :
    (updateModuleReadings id id sampleDisplays sampleReadings).voltageDisp 2 = id "123.4" ∧
    (updateModuleReadings id id sampleDisplays sampleReadings).currentDisp 2 =
      sampleDisplays.currentDisp 2 :=
  ⟨(c5_readings_update String id id sampleDisplays sampleReadings 2 "123.4" "0").1
      (by decide) rfl,
   (c5_readings_update String id id sampleDisplays sampleReadings 2 "123.4" "0").2.2.2.1
      (by decide) rfl⟩
